import Mathlib

/-!
Verification of the kafka-utils rolling-decommission engine
(`kafka_utils/kafka_rolling_restart/rolling_decommission.py` and
`kafka_utils/kafka_rolling_restart/main.py`) against its natural-language
specification.

The Python code is shallowly embedded: every pure computation becomes a Lean
function, and the effectful parts (printing, SSH sessions, remote commands,
stability polling, hook execution) are given a trace semantics: each operation
appends an `Event` to an event list, and fallible operations return
`Except RunError Unit` mirroring the Python exceptions `TaskFailedException`
and `WaitTimeoutException`.

Helpers that live in modules absent from the provided sources
(`kafka_utils/kafka_rolling_restart/util.py`, `kafka_utils/util/ssh.py`,
`kafka_utils/util/utils.py`) are modelled from the specification; each such
definition carries a doc comment starting with `Modelled from the spec:`.
Everything else is translated directly from the source files.
-/

/-- Phase of a task hook: pre-stop or post-stop. -/
inductive Phase
  | pre
  | post
deriving DecidableEq

/-- Observable events of one run, in order of occurrence.

* `sshOpen h` / `sshClose h`: entry/exit of the `with ssh(host=h, ...)` block.
* `task ph name h`: hook `name` of phase `ph` executed (or attempted) on `h`.
* `waitStable hosts c`: one call to `wait_for_stable_cluster` over `hosts`
  requiring `c` consecutive healthy checks.
* `stopping h k total`: the `print("Stopping {0} ({1}/{2})")` line.
* `stopOp h`: the sequencer invoking the operation driver
  (`decommission_broker`) for host `h`.
* `remoteCmd h c`: a command `c` actually executed on the remote session of
  host `h` (the operation driver would emit these). -/
inductive Event
  | sshOpen (host : String)
  | sshClose (host : String)
  | task (ph : Phase) (name : String) (host : String)
  | waitStable (hosts : List String) (required_count : Int)
  | stopping (host : String) (num : Nat) (total : Int)
  | stopOp (host : String)
  | remoteCmd (host : String) (cmd : String)
deriving DecidableEq

/-- The two fatal exceptions crossing the engine boundary:
`TaskFailedException` and `WaitTimeoutException` (from `.error` / `.task`). -/
inductive RunError
  | taskFailed
  | waitTimeout
deriving DecidableEq

/-- A constructed task-hook instance. `okOn h` tells whether running the hook
against host `h` succeeds (models the opaque user-supplied plugin behaviour). -/
structure Hook where
  name : String
  okOn : String → Bool

/-- What a plugin reference resolves to: an optional constructor for each of
the two capabilities `PreStopTask` / `PostStopTask`.  A class may match one,
both, or neither capability. -/
structure Plugin where
  asPre : Option (String → Hook)
  asPost : Option (String → Hook)

/-- The two capability classes iterated over in `get_task_class`
(`tasks_classes = [PreStopTask, PostStopTask]`, main.py line 249). -/
inductive TaskClassKind
  | preStop
  | postStop
deriving DecidableEq, BEq

/-- Modelled from the spec: `dynamic_import` (`kafka_utils/util/utils.py`,
missing from src/) resolves a string reference to a constructible hook
implementation matching the given capability; `none` when the resolved class
does not match that capability. -/
def dynamic_import (env : String → Plugin) (func : String) (cls : TaskClassKind) :
    Option (String → Hook) :=
  match cls with
  | TaskClassKind.preStop => (env func).asPre
  | TaskClassKind.postStop => (env func).asPost

/-- Python `l[i:]` slicing for a possibly negative start index. -/
def pySliceFrom {α : Type} (l : List α) (i : Int) : List α :=
  if 0 ≤ i then l.drop i.toNat else l.drop (l.length - (-i).toNat)

/-- One insertion with Python `dict` semantics: an existing key keeps its
position but takes the new value; a new key is appended. -/
def pyDictInsert (d : List (String × String)) (kv : String × String) :
    List (String × String) :=
  if d.any (fun p => p.1 == kv.1) then
    d.map (fun p => if p.1 == kv.1 then (p.1, kv.2) else p)
  else d ++ [kv]

/-- Python `dict(list_of_pairs)` followed by `.items()`: first-occurrence key
order, last value wins. -/
def pyDict (l : List (String × String)) : List (String × String) :=
  l.foldl pyDictInsert []

/-- Body of the inner loop of `get_task_class` (main.py lines 252-261): for one
capability class, try `dynamic_import`; on success append the constructed
instance to the matching list.  The final `else: print(...); sys.exit(1)`
branch of the source is represented by `Except.error ()`. -/
def taskStep (env : String → Plugin) (func args : String)
    (acc : List Hook × List Hook) (task_class : TaskClassKind) :
    Except Unit (List Hook × List Hook) :=
  match dynamic_import env func task_class with
  | some imported_class =>
    if task_class == TaskClassKind.preStop then
      Except.ok (acc.1 ++ [imported_class args], acc.2)
    else if task_class == TaskClassKind.postStop then
      Except.ok (acc.1, acc.2 ++ [imported_class args])
    else Except.error ()
  | none => Except.ok acc

/-- Body of the outer loop of `get_task_class`: classify one
`(func, task_args)` entry against `[PreStopTask, PostStopTask]`. -/
def classifyRef (env : String → Plugin) (acc : List Hook × List Hook)
    (p : String × String) : Except Unit (List Hook × List Hook) :=
  [TaskClassKind.preStop, TaskClassKind.postStop].foldlM
    (taskStep env p.1 p.2) acc

/-- `get_task_class` (main.py lines 237-262): pairs tasks with their arguments
via `dict(list(zip(tasks, task_args)))` and classifies each reference against
`[PreStopTask, PostStopTask]`.  `Except.error ()` is the `sys.exit(1)` of the
source's unreachable else branch. -/
def get_task_class (env : String → Plugin) (tasks task_args : List String) :
    Except Unit (List Hook × List Hook) :=
  (pyDict (tasks.zip task_args)).foldlM (classifyRef env) ([], [])

/-- The effect of one `(env func).asPre` / `.asPost` classification round,
as a pure function (used to characterise `get_task_class`). -/
def taskStepPure (env : String → Plugin) (func args : String)
    (acc : List Hook × List Hook) : List Hook × List Hook :=
  let a1 := match (env func).asPre with
    | some c => (acc.1 ++ [c args], acc.2)
    | none => acc
  match (env func).asPost with
  | some c => (a1.1, a1.2 ++ [c args])
  | none => a1

/-- Modelled from the spec: `execute_task`
(`kafka_utils/kafka_rolling_restart/util.py`, missing from src/) runs every
hook of the list against `host` in order; the first failing hook raises
`TaskFailed` immediately and the remaining hooks are not run.  Each attempted
hook leaves a `task` event. -/
def execute_task (hooks : List Hook) (host : String) (ph : Phase) :
    List Event × Except RunError Unit :=
  match hooks with
  | [] => ([], Except.ok ())
  | t :: rest =>
    if t.okOn host then
      let p := execute_task rest host ph
      (Event.task ph t.name host :: p.1, p.2)
    else ([Event.task ph t.name host], Except.error RunError.taskFailed)

/-- Modelled from the spec: `wait_for_stable_cluster`
(`kafka_utils/kafka_rolling_restart/util.py`, missing from src/) polls all
hosts until `check_count` consecutive healthy checks are observed or the
`unhealthy_time_limit` budget is exceeded, in which case it raises
`WaitTimeout`.  Whether stability is reached within the budget depends on the
cluster, which we model by the boolean `stable`; the event records the polled
hosts and the required consecutive count. -/
def wait_for_stable_cluster (stable : Bool) (hosts : List String)
    (jolokia_port : Int) (jolokia_pfx : String)
    (check_interval check_count unhealthy_time_limit : Int) :
    List Event × Except RunError Unit :=
  ([Event.waitStable hosts check_count],
   if stable then Except.ok () else Except.error RunError.waitTimeout)

/-- `decommission_broker` (rolling_decommission.py lines 24-26).  Its docstring
says "Execute the stop", but the body of the source function is `pass`: it
executes no remote command at all, so it contributes no events. -/
def decommission_broker (host : String) (connection : Unit)
    (stop_command : String) (verbose : Bool) : List Event :=
  []

/-- The `for n, host in enumerate(all_hosts[skip:])` loop of
`execute_rolling_decommission` (rolling_decommission.py lines 81-95).
`waitOk k` is the oracle for the outcome of the `k`-th stability wait.
Within the `with ssh(...)` block (modelled from the spec: the session from
`kafka_utils/util/ssh.py` is scoped to the block and released on scope exit,
also when the block raises): run pre-stop tasks, wait for stability with a
required count of `1` for the first broker else `check_count`, print the
Stopping line, invoke `decommission_broker`, then run post-stop tasks.
A raised error stops the iteration. -/
def decomLoop (waitOk : Nat → Bool) (all_hosts : List String)
    (jolokia_port : Int) (jolokia_pfx : String)
    (check_interval check_count unhealthy_time_limit skip : Int)
    (pre_stop_task post_stop_task : List Hook)
    (stop_command : String) (verbose : Bool) :
    List String → Nat → List Event × Except RunError Unit
  | [], _ => ([], Except.ok ())
  | host :: rest, n =>
    let p1 := execute_task pre_stop_task host Phase.pre
    let body :=
      match p1.2 with
      | Except.error e => (p1.1, Except.error e)
      | Except.ok _ =>
        let p2 := wait_for_stable_cluster (waitOk n) all_hosts jolokia_port
          jolokia_pfx check_interval (if n == 0 then 1 else check_count)
          unhealthy_time_limit
        match p2.2 with
        | Except.error e => (p1.1 ++ p2.1, Except.error e)
        | Except.ok _ =>
          let e3 := [Event.stopping host (n + 1) ((all_hosts.length : Int) - skip)]
          let e4 := Event.stopOp host ::
            decommission_broker host () stop_command verbose
          let p5 := execute_task post_stop_task host Phase.post
          (p1.1 ++ p2.1 ++ e3 ++ e4 ++ p5.1, p5.2)
    let evs := Event.sshOpen host :: (body.1 ++ [Event.sshClose host])
    match body.2 with
    | Except.error e => (evs, Except.error e)
    | Except.ok _ =>
      let q := decomLoop waitOk all_hosts jolokia_port jolokia_pfx
        check_interval check_count unhealthy_time_limit skip
        pre_stop_task post_stop_task stop_command verbose rest (n + 1)
      (evs ++ q.1, q.2)

/-- `execute_rolling_decommission` (rolling_decommission.py lines 29-104):
run the per-broker loop over `all_hosts[skip:]`, then perform one final
`wait_for_stable_cluster` with the configured `check_count` before return.
`waitOk` is the stability oracle, indexed by wait-call order (the final wait
is call number `(all_hosts[skip:]).length`). -/
def execute_rolling_decommission (waitOk : Nat → Bool)
    (brokers : List (Int × String)) (jolokia_port : Int) (jolokia_pfx : String)
    (check_interval check_count unhealthy_time_limit skip : Int)
    (verbose : Bool) (pre_stop_task post_stop_task : List Hook)
    (start_command stop_command : String) (ssh_password : Option String) :
    List Event × Except RunError Unit :=
  let all_hosts := brokers.map (fun b => b.2)
  let p := decomLoop waitOk all_hosts jolokia_port jolokia_pfx check_interval
    check_count unhealthy_time_limit skip pre_stop_task post_stop_task
    stop_command verbose (pySliceFrom all_hosts skip) 0
  match p.2 with
  | Except.error e => (p.1, Except.error e)
  | Except.ok _ =>
    let q := wait_for_stable_cluster (waitOk (pySliceFrom all_hosts skip).length)
      all_hosts jolokia_port jolokia_pfx check_interval check_count
      unhealthy_time_limit
    (p.1 ++ q.1, q.2)

/-- The command-line options consumed by `run` (main.py).  Numeric flags are
`Int` because `argparse` accepts negative integers; `broker_ids`, `task` and
`task_args` are `none` when the flag was not given. -/
structure Opts where
  broker_ids : Option (List Int)
  check_interval : Int
  check_count : Int
  unhealthy_time_limit : Int
  jolokia_port : Int
  jolokia_pfx : String
  no_confirm : Bool
  skip : Int
  verbose : Bool
  task : Option (List String)
  task_args : Option (List String)
  start_command : String
  stop_command : String
  ssh_password : Option String

/-- `validate_opts` (main.py lines 191-215).  Returns the printed messages and
`true` when the options are invalid (mirroring the source's truthy return). -/
def validate_opts (opts : Opts) (brokers_num : Nat) : List String × Bool :=
  if opts.skip < 0 ∨ (brokers_num : Int) ≤ opts.skip then
    (["Error: --skip must be >= 0 and < #brokers"], true)
  else if opts.check_count < 0 then
    (["Error: --check-count must be >= 0"], true)
  else if opts.unhealthy_time_limit < 0 then
    (["Error: --unhealthy-time-limit must be >= 0"], true)
  else
    let warn := if opts.check_count = 0 then
      ["Warning: no check will be performed"] else []
    if opts.check_interval < 0 then
      (warn ++ ["Error: --check-interval must be >= 0"], true)
    else (warn, false)

/-- One iteration of the `validate_broker_ids_subset` loop: keep the
accumulator when the id exists, otherwise print an error line and turn the
valid flag off. -/
def subsetStep (broker_ids : List Int) (acc : List String × Bool)
    (subset_id : Int) : List String × Bool :=
  if broker_ids.contains subset_id then acc
  else (acc.1 ++ ["Error: user specified broker id " ++ toString subset_id
          ++ " does not exist in cluster."], false)

/-- `validate_broker_ids_subset` (main.py lines 218-234): every user-specified
broker id must exist in the cluster's broker id list; one error line is
printed per missing id, and the returned boolean is the conjunction. -/
def validate_broker_ids_subset (broker_ids subset_ids : List Int) :
    List String × Bool :=
  subset_ids.foldl (subsetStep broker_ids) ([], true)

/-- Modelled from the spec: `filter_broker_list`
(`kafka_utils/kafka_rolling_restart/util.py`, missing from src/) keeps the
subsequence of brokers whose id is among the requested ids. -/
def filter_broker_list (brokers : List (Int × String)) (ids : List Int) :
    List (Int × String) :=
  brokers.filter (fun b => ids.contains b.1)

/-- `print_brokers` (main.py lines 161-171): the printed lines. -/
def print_brokers (cluster_name : String) (brokers : List (Int × String)) :
    List String :=
  ("Will restart the following brokers in " ++ cluster_name ++ ":") ::
    brokers.map (fun b => "  " ++ toString b.1 ++ ": " ++ b.2)

/-- Truthiness of an optional Python list (`if opts.broker_ids:`). -/
def truthyList {α : Type} (l : Option (List α)) : Bool :=
  match l with
  | some xs => !xs.isEmpty
  | none => false

/-- The broker list that reaches `validate_opts` and the sequencer in `run`:
the full list, subset-filtered when `--broker-ids` was given (main.py
lines 277-280). -/
def effective_brokers (opts : Opts) (brokers0 : List (Int × String)) :
    List (Int × String) :=
  if truthyList opts.broker_ids then
    filter_broker_list brokers0
      (match opts.broker_ids with | some l => l | none => [])
  else brokers0

/-- Exit status of one `run` invocation.  `exited c` is `sys.exit(c)`;
`completed` is the normal fall-through (process exit code 0); `crashed` is an
uncaught Python exception (e.g. `zip(tasks, None)` raising `TypeError`). -/
inductive RunResult
  | exited (code : Nat)
  | completed
  | crashed
deriving DecidableEq

/-- `run` (main.py lines 265-311), from the point where the broker list has
been obtained from the external discovery collaborator.  Arguments beyond
`opts`: the cluster name (for `print_brokers`), the discovered broker list,
the plugin environment (for `dynamic_import`), the user's confirmation answer,
and the stability oracle.  Returns the messages printed by `run` itself, the
engine's event trace, and the process outcome.  `opts.command` is
`execute_rolling_decommission`, as installed by `add_subparser`
(rolling_decommission.py line 119). -/
def run (opts : Opts) (cluster_name : String) (brokers0 : List (Int × String))
    (env : String → Plugin) (confirm : Bool) (waitOk : Nat → Bool) :
    List String × List Event × RunResult :=
  let ids := match opts.broker_ids with | some l => l | none => []
  let vsub := validate_broker_ids_subset (brokers0.map (fun b => b.1)) ids
  if truthyList opts.broker_ids && !vsub.2 then
    (vsub.1, [], RunResult.exited 1)
  else
    let msgs0 := if truthyList opts.broker_ids then vsub.1 else []
    let brokers := if truthyList opts.broker_ids then
      filter_broker_list brokers0 ids else brokers0
    let vop := validate_opts opts brokers.length
    let msgs1 := msgs0 ++ vop.1
    if vop.2 then (msgs1, [], RunResult.exited 1)
    else
      let tlist := match opts.task with | some l => l | none => []
      let tasksRes : Except Bool (List Hook × List Hook) :=
        if truthyList opts.task then
          match opts.task_args with
          | none => Except.error true
          | some args =>
            match get_task_class env tlist args with
            | Except.error _ => Except.error false
            | Except.ok pp => Except.ok pp
        else Except.ok ([], [])
      match tasksRes with
      | Except.error c =>
        (msgs1, [], if c then RunResult.crashed else RunResult.exited 1)
      | Except.ok pp =>
        let msgs2 := msgs1 ++
          print_brokers cluster_name (pySliceFrom brokers opts.skip)
        if opts.no_confirm || confirm then
          let msgs3 := msgs2 ++ ["Execute rolling command"]
          let r := execute_rolling_decommission waitOk brokers
            opts.jolokia_port opts.jolokia_pfx opts.check_interval
            opts.check_count opts.unhealthy_time_limit opts.skip opts.verbose
            pp.1 pp.2 opts.start_command opts.stop_command opts.ssh_password
          match r.2 with
          | Except.ok _ => (msgs3, r.1, RunResult.completed)
          | Except.error RunError.taskFailed =>
            (msgs3 ++ ["ERROR: pre/post tasks failed, exiting"], r.1,
             RunResult.exited 1)
          | Except.error RunError.waitTimeout =>
            (msgs3 ++ ["ERROR: cluster is still unhealthy, exiting"], r.1,
             RunResult.exited 1)
        else (msgs2, [], RunResult.completed)

/-- Is the event a pre-stop hook execution? -/
def isPreTaskEv : Event → Bool
  | Event.task Phase.pre _ _ => true
  | _ => false

/-- Is the event a post-stop hook execution? -/
def isPostTaskEv : Event → Bool
  | Event.task Phase.post _ _ => true
  | _ => false

/-- Is the event a stability wait? -/
def isWaitEv : Event → Bool
  | Event.waitStable _ _ => true
  | _ => false

/-- Is the event the opening of a remote session? -/
def isSshOpenEv : Event → Bool
  | Event.sshOpen _ => true
  | _ => false

/-- Is the event the closing of a remote session? -/
def isSshCloseEv : Event → Bool
  | Event.sshClose _ => true
  | _ => false

/-- Is the event a session open or close? -/
def isSshEv : Event → Bool
  | Event.sshOpen _ => true
  | Event.sshClose _ => true
  | _ => false

/-- The host of a stop-operation invocation, if any. -/
def stopOpHost : Event → Option String
  | Event.stopOp h => some h
  | _ => none

/-- The required consecutive-healthy count of a stability-wait event, if any. -/
def waitReqOf : Event → Option Int
  | Event.waitStable _ c => some c
  | _ => none

/-- The host of a remote command actually executed, if any. -/
def remoteCmdHost : Event → Option String
  | Event.remoteCmd h _ => some h
  | _ => none

/-- The single broker host an event pertains to, if any (stability waits are
cluster-wide and carry no single host). -/
def eventHost : Event → Option String
  | Event.sshOpen h => some h
  | Event.sshClose h => some h
  | Event.task _ _ h => some h
  | Event.stopping h _ _ => some h
  | Event.stopOp h => some h
  | Event.remoteCmd h _ => some h
  | Event.waitStable _ _ => none

/-- The trace left by `execute_task` when every hook succeeds. -/
def hookEvents (ph : Phase) (hooks : List Hook) (host : String) : List Event :=
  hooks.map (fun t => Event.task ph t.name host)

/-- The per-broker event segment on the success path of the sequencer, for the
`n`-th processed broker `host`: open the session, run the pre-stop hooks, wait
for stability (required count `1` for the first processed broker, else
`check_count`), print the Stopping line, invoke the operation driver, run the
post-stop hooks, close the session. -/
def brokerSegment (all_hosts : List String) (check_count skip : Int)
    (pre post : List Hook) (n : Nat) (host : String) : List Event :=
  Event.sshOpen host ::
    (hookEvents Phase.pre pre host ++
     [Event.waitStable all_hosts (if n == 0 then 1 else check_count)] ++
     [Event.stopping host (n + 1) ((all_hosts.length : Int) - skip)] ++
     [Event.stopOp host] ++
     hookEvents Phase.post post host ++
     [Event.sshClose host])

/-- Concatenation of success-path broker segments, starting at index `n`. -/
def segJoin (all_hosts : List String) (check_count skip : Int)
    (pre post : List Hook) : List String → Nat → List Event
  | [], _ => []
  | host :: rest, n =>
    brokerSegment all_hosts check_count skip pre post n host ++
      segJoin all_hosts check_count skip pre post rest (n + 1)

/-- One per-broker session scope: the inner events wrapped by the session
open/close pair of that broker. -/
def chunkEvents (c : String × List Event) : List Event :=
  Event.sshOpen c.1 :: (c.2 ++ [Event.sshClose c.1])

/-- Stability oracle of an always-healthy cluster. -/
def wTrue : Nat → Bool := fun _ => true

/-- A hook that succeeds on every host. -/
def hookOk (nm : String) : Hook :=
  { name := nm, okOn := fun _ => true }

/-- A hook that fails exactly on the given host. -/
def hookFailOn (nm bad : String) : Hook :=
  { name := nm, okOn := fun h => h != bad }

/-- A plugin environment in which no reference matches any capability. -/
def envNone : String → Plugin :=
  fun _ => { asPre := none, asPost := none }

/-- A plugin environment with a single post-stop plugin named `ref` whose
instances fail exactly on host `bad`. -/
def envPostFailOn (ref bad : String) : String → Plugin :=
  fun r =>
    if r == ref then
      { asPre := none, asPost := some (fun _ => hookFailOn ref bad) }
    else { asPre := none, asPost := none }

/-- A default option set: all numeric flags at their argparse defaults
(main.py lines 36-42), confirmation bypassed, no subset, no tasks. -/
def optsStd : Opts :=
  { broker_ids := none, check_interval := 10, check_count := 12,
    unhealthy_time_limit := 600, jolokia_port := 8778,
    jolokia_pfx := "jolokia/", no_confirm := true, skip := 0, verbose := false,
    task := none, task_args := none,
    start_command := "service kafka start",
    stop_command := "service kafka stop", ssh_password := none }

/-- Options supplying one task reference that resolves to neither capability. -/
def optsC3 : Opts :=
  { optsStd with task := some ["some.module.Task"], task_args := some ["arg"] }

/-- Options supplying the `mytask` post-stop plugin. -/
def optsC7 : Opts :=
  { optsStd with task := some ["mytask"], task_args := some ["arg"] }

/-- Plugin environment for the post-hook-failure scenario: `mytask` resolves
to a post-stop task whose instances fail exactly on host `C`. -/
def envC7 : String → Plugin := envPostFailOn "mytask" "C"

/-- A five-broker cluster. -/
def brokersABCDE : List (Int × String) :=
  [(1, "A"), (2, "B"), (3, "C"), (4, "D"), (5, "E")]

/-- A three-broker cluster with ids 0, 1, 2 (the spec's filter example). -/
def brokersABC : List (Int × String) := [(0, "A"), (1, "B"), (2, "C")]

/-- Options with `--skip 7`, out of range for a three-broker cluster. -/
def optsSkipBad : Opts := { optsStd with skip := 7 }

/-- Options with `--check-count 0`. -/
def optsWarn : Opts := { optsStd with check_count := 0 }

/-- Options requesting broker-id subset `{0, 5}`. -/
def optsSubsetBad : Opts := { optsStd with broker_ids := some [0, 5] }

/-- Trace of a one-broker decommission with a single always-succeeding
pre-stop hook. -/
def c1trace : List Event :=
  (execute_rolling_decommission wTrue [(1, "A")] 8778 "jolokia/" 10 12 600 0
    false [hookOk "pre1"] [] "service kafka start" "service kafka stop"
    none).1

/-- Trace of a two-broker decommission with `check_count = 0` and no hooks. -/
def c2trace : List Event :=
  (execute_rolling_decommission wTrue [(1, "A"), (2, "B")] 8778 "jolokia/" 10
    0 600 0 false [] [] "service kafka start" "service kafka stop" none).1

/-- Trace of a five-broker decommission with `skip = 2`, no hooks, and a
symbolic configured check count. -/
def c4trace (cc : Int) : List Event :=
  (execute_rolling_decommission wTrue
    [(1, "h1"), (2, "h2"), (3, "h3"), (4, "h4"), (5, "h5")] 8778 "jolokia/"
    10 cc 600 2 false [] [] "service kafka start" "service kafka stop" none).1

/-- Trace of a one-broker decommission with a single always-succeeding
pre-stop hook (session-scope scenario). -/
def c5trace : List Event :=
  (execute_rolling_decommission wTrue [(2, "B")] 8778 "jolokia/" 10 12 600 0
    false [hookOk "hook5"] [] "service kafka start" "service kafka stop"
    none).1

/-- Full `run` on five brokers where the post-stop hook fails on broker 3
(host `C`). -/
def c7run : List String × List Event × RunResult :=
  run optsC7 "cluster" brokersABCDE envC7 true wTrue

/-- Full `run` on one broker with a task reference resolving to neither
capability. -/
def c3run : List String × List Event × RunResult :=
  run optsC3 "cluster" [(1, "A")] envNone true wTrue

/-- When every hook of the list succeeds on `host`, `execute_task` runs all of
them in order and returns success. -/
lemma execute_task_allok (hooks : List Hook) (host : String) (ph : Phase)
    (h : ∀ t ∈ hooks, t.okOn host = true) :
    execute_task hooks host ph = (hookEvents ph hooks host, Except.ok ()) := by
  induction hooks with
  | nil => simp [execute_task, hookEvents]
  | cons t rest ih =>
    have ht : t.okOn host = true := h t (List.mem_cons_self t rest)
    have hr := ih (fun x hx => h x (List.mem_cons_of_mem t hx))
    simp [execute_task, hookEvents, ht, hr]

/-- `execute_task` never opens or closes remote sessions. -/
lemma execute_task_no_ssh (hooks : List Hook) (host : String) (ph : Phase) :
    ((execute_task hooks host ph).1.all (fun e => !isSshEv e)) = true := by
  induction hooks with
  | nil => simp [execute_task]
  | cons t rest ih =>
    cases ht : t.okOn host with
    | false => simp [execute_task, ht, isSshEv]
    | true =>
      have hr := ih
      simp [execute_task, ht, isSshEv] at hr ⊢
      exact hr

/-- On an all-healthy cluster with all hooks succeeding, the sequencer loop
produces exactly the concatenation of per-broker success segments. -/
lemma decomLoop_allok (waitOk : Nat → Bool) (all_hosts : List String)
    (jolokia_port : Int) (jolokia_pfx : String)
    (check_interval check_count unhealthy_time_limit skip : Int)
    (pre post : List Hook) (stop_command : String) (verbose : Bool)
    (hpre : ∀ t ∈ pre, ∀ h, t.okOn h = true)
    (hpost : ∀ t ∈ post, ∀ h, t.okOn h = true)
    (hw : ∀ k, waitOk k = true) :
    ∀ (rem : List String) (n : Nat),
      decomLoop waitOk all_hosts jolokia_port jolokia_pfx check_interval
        check_count unhealthy_time_limit skip pre post stop_command verbose
        rem n =
      (segJoin all_hosts check_count skip pre post rem n, Except.ok ()) := by
  intro rem
  induction rem with
  | nil => intro n; simp [decomLoop, segJoin]
  | cons host rest ih =>
    intro n
    have h1 : execute_task pre host Phase.pre =
        (hookEvents Phase.pre pre host, Except.ok ()) :=
      execute_task_allok pre host Phase.pre (fun t ht => hpre t ht host)
    have h5 : execute_task post host Phase.post =
        (hookEvents Phase.post post host, Except.ok ()) :=
      execute_task_allok post host Phase.post (fun t ht => hpost t ht host)
    simp [decomLoop, segJoin, brokerSegment, h1, h5, wait_for_stable_cluster,
      hw n, decommission_broker, ih, List.append_assoc]

/-- Whatever the hook and wait outcomes, the loop's trace decomposes into
per-broker session scopes: each processed broker contributes a block that
opens with `sshOpen` of its host, closes with `sshClose` of the same host, and
contains no session event in between.  In particular a broker's session is
always closed — also on failure — before anything further happens. -/
lemma decomLoop_chunks (waitOk : Nat → Bool) (all_hosts : List String)
    (jolokia_port : Int) (jolokia_pfx : String)
    (check_interval check_count unhealthy_time_limit skip : Int)
    (pre post : List Hook) (stop_command : String) (verbose : Bool) :
    ∀ (rem : List String) (n : Nat), ∃ chunks : List (String × List Event),
      (decomLoop waitOk all_hosts jolokia_port jolokia_pfx check_interval
        check_count unhealthy_time_limit skip pre post stop_command verbose
        rem n).1 = (chunks.map chunkEvents).flatten ∧
      ∀ c ∈ chunks, c.2.all (fun e => !isSshEv e) = true := by
  intro rem
  induction rem with
  | nil =>
    intro n
    exact ⟨[], by simp [decomLoop], by simp⟩
  | cons host rest ih =>
    intro n
    rcases hp1 : execute_task pre host Phase.pre with ⟨e1, r1⟩
    have he1 : e1.all (fun e => !isSshEv e) = true := by
      have h := execute_task_no_ssh pre host Phase.pre
      rw [hp1] at h
      exact h
    cases r1 with
    | error err =>
      refine ⟨[(host, e1)], ?_, ?_⟩
      · simp [decomLoop, hp1, chunkEvents]
      · intro c hc
        simp only [List.mem_singleton] at hc
        subst hc
        exact he1
    | ok u =>
      cases u
      cases hw : waitOk n with
      | false =>
        refine ⟨[(host, e1 ++
          [Event.waitStable all_hosts (if n == 0 then 1 else check_count)])],
          ?_, ?_⟩
        · simp [decomLoop, hp1, hw, wait_for_stable_cluster, chunkEvents,
            List.append_assoc]
        · intro c hc
          simp only [List.mem_singleton] at hc
          subst hc
          have hb := he1
          simp [List.all_append, isSshEv] at hb ⊢
          exact hb
      | true =>
        rcases hp5 : execute_task post host Phase.post with ⟨e5, r5⟩
        have he5 : e5.all (fun e => !isSshEv e) = true := by
          have h := execute_task_no_ssh post host Phase.post
          rw [hp5] at h
          exact h
        cases r5 with
        | error err =>
          refine ⟨[(host, e1 ++
            [Event.waitStable all_hosts (if n == 0 then 1 else check_count)] ++
            [Event.stopping host (n + 1) ((all_hosts.length : Int) - skip)] ++
            [Event.stopOp host] ++ e5)], ?_, ?_⟩
          · simp [decomLoop, hp1, hw, hp5, wait_for_stable_cluster,
              decommission_broker, chunkEvents, List.append_assoc]
          · intro c hc
            simp only [List.mem_singleton] at hc
            subst hc
            have hb1 := he1
            have hb5 := he5
            simp [List.all_append, isSshEv] at hb1 hb5 ⊢
            exact ⟨hb1, hb5⟩
        | ok u2 =>
          cases u2
          obtain ⟨chs, hjoin, hns⟩ := ih (n + 1)
          refine ⟨(host, e1 ++
            [Event.waitStable all_hosts (if n == 0 then 1 else check_count)] ++
            [Event.stopping host (n + 1) ((all_hosts.length : Int) - skip)] ++
            [Event.stopOp host] ++ e5) :: chs, ?_, ?_⟩
          · simp [decomLoop, hp1, hw, hp5, wait_for_stable_cluster,
              decommission_broker, chunkEvents, hjoin, List.append_assoc]
          · intro c hc
            rcases List.mem_cons.mp hc with h | h
            · subst h
              have hb1 := he1
              have hb5 := he5
              simp [List.all_append, isSshEv] at hb1 hb5 ⊢
              exact ⟨hb1, hb5⟩
            · exact hns c h

/-- One classification round never reaches the source's `sys.exit(1)` branch:
since the inner loop iterates exactly over `[PreStopTask, PostStopTask]`, the
final else is dead code, and the round reduces to the pure update
`taskStepPure`. -/
lemma classifyRef_eq (env : String → Plugin) (acc : List Hook × List Hook)
    (p : String × String) :
    classifyRef env acc p = Except.ok (taskStepPure env p.1 p.2 acc) := by
  cases hp : (env p.1).asPre <;> cases hq : (env p.1).asPost <;>
    simp [classifyRef, List.foldlM, taskStep, dynamic_import, taskStepPure,
      hp, hq] <;> rfl

/-- The whole `get_task_class` fold never errors and computes the pure fold of
`taskStepPure` over the python-dict of task/argument pairs. -/
lemma gtc_fold_eq (env : String → Plugin) :
    ∀ (L : List (String × String)) (acc : List Hook × List Hook),
      L.foldlM (classifyRef env) acc =
        Except.ok (L.foldl (fun a p => taskStepPure env p.1 p.2 a) acc) := by
  intro L
  induction L with
  | nil => intro acc; rfl
  | cons p t ih =>
    intro acc
    rw [List.foldlM_cons, classifyRef_eq]
    show t.foldlM (classifyRef env) (taskStepPure env p.1 p.2 acc) = _
    rw [ih]
    rfl

/-- `get_task_class` always returns `Except.ok`: the configuration-error exit
of the source is unreachable. -/
lemma get_task_class_eq (env : String → Plugin) (tasks task_args : List String) :
    get_task_class env tasks task_args =
      Except.ok ((pyDict (tasks.zip task_args)).foldl
        (fun a p => taskStepPure env p.1 p.2 a) ([], [])) := by
  unfold get_task_class
  exact gtc_fold_eq env _ _

/-- `zip` truncates to the shorter list: zipping against `l2` only ever reads
the first `l2.length` elements of `l1`. -/
lemma zip_eq_zip_take {α β : Type} :
    ∀ (l1 : List α) (l2 : List β), l1.zip l2 = (l1.take l2.length).zip l2 := by
  intro l1
  induction l1 with
  | nil => intro l2; simp
  | cons a t ih =>
    intro l2
    cases l2 with
    | nil => simp
    | cons b t2 => simp [List.zip_cons_cons, ih t2]

/-- The boolean computed by the `validate_broker_ids_subset` fold, from an
arbitrary accumulator. -/
lemma subset_fold_snd (broker_ids : List Int) :
    ∀ (ids : List Int) (msgs : List String) (b : Bool),
      (ids.foldl (subsetStep broker_ids) (msgs, b)).2 =
        (b && ids.all (fun i => broker_ids.contains i)) := by
  intro ids
  induction ids with
  | nil => intro msgs b; simp
  | cons i t ih =>
    intro msgs b
    by_cases hm : i ∈ broker_ids
    · have hstep : subsetStep broker_ids (msgs, b) i = (msgs, b) := by
        simp [subsetStep, List.elem_iff, hm]
      rw [List.foldl_cons, hstep, ih]
      simp [List.elem_iff, hm]
    · have hstep : subsetStep broker_ids (msgs, b) i =
          (msgs ++ ["Error: user specified broker id " ++ toString i
            ++ " does not exist in cluster."], false) := by
        simp [subsetStep, List.elem_iff, hm]
      rw [List.foldl_cons, hstep, ih]
      simp [List.elem_iff, hm]

/-- The valid flag of `validate_broker_ids_subset` is the conjunction of the
membership checks. -/
lemma validate_broker_ids_subset_snd (broker_ids subset_ids : List Int) :
    (validate_broker_ids_subset broker_ids subset_ids).2 =
      subset_ids.all (fun i => broker_ids.contains i) := by
  unfold validate_broker_ids_subset
  rw [subset_fold_snd]
  simp

/-- Claim C1 (counterexample): on a one-broker run with one pre-stop hook, the
pre-stop hook executes strictly before the stability wait, refuting the
claimed per-broker order "wait for cluster stability first, then run every
pre-stop hook" (rolling_decommission.py lines 84-92 run `execute_task` before
`wait_for_stable_cluster`). -/
theorem c1_phase_order_counterexample :
    c1trace.findIdx isPreTaskEv < c1trace.findIdx isWaitEv ∧
    c1trace.any isPreTaskEv = true ∧
    c1trace.any isWaitEv = true := by decide

/-- Claim C2 (code evaluated at the failing input): on brokers `[A, B]` with
`check_count = 0`, the sequencer invokes the stop-operation driver once per
broker in order A then B, but `decommission_broker` — whose body is `pass`
despite its docstring "Execute the stop" — issues zero remote commands, so no
stop command (and no start command) is ever executed. -/
theorem c2_decommission_stub_no_commands :
    decommission_broker "A" () "service kafka stop" false = [] ∧
    c2trace.filterMap stopOpHost = ["A", "B"] ∧
    c2trace.filterMap remoteCmdHost = [] := by
  refine ⟨rfl, by decide, by decide⟩

/-- Claim C3 (code evaluated at the failing input): a task reference that
resolves to neither a `PreStopTask` nor a `PostStopTask` is silently skipped
by `get_task_class` — no error, no exit, empty hook lists — and the run
proceeds to operate on brokers (the `sys.exit(1)` branch at main.py lines
260-261 is unreachable because the inner loop only iterates over the two
capability classes). -/
theorem c3_unmatched_task_ref_silently_ignored :
    get_task_class envNone ["some.module.Task"] ["arg"] =
      Except.ok ([], []) ∧
    c3run.2.2 = RunResult.completed ∧
    c3run.2.1.filterMap stopOpHost = ["A"] := by
  refine ⟨rfl, by decide, by decide⟩

/-- Claim C4: with five brokers and `skip = 2`, the sequencer performs stop
operations exactly for the brokers at positions 2, 3, 4 (hosts h3, h4, h5) in
that order; the stability waits require 1 consecutive healthy check before
the first processed broker and the configured `cc` before the other two (the
fourth recorded wait is the final post-run wait, also at `cc`); and every
host-specific event concerns only the three processed brokers. -/
theorem c4_skip_two_processes_tail (cc : Int) :
    (c4trace cc).filterMap stopOpHost = ["h3", "h4", "h5"] ∧
    (c4trace cc).filterMap waitReqOf = [1, cc, cc, cc] ∧
    (((c4trace cc).filterMap eventHost).all
      (fun h => ["h3", "h4", "h5"].contains h)) = true := by
  refine ⟨rfl, rfl, rfl⟩

/-- Claim C5 (counterexample): on a one-broker run with one pre-stop hook, the
remote session opens before the pre-stop hook runs and before the stability
wait, and closes only after them: the session is not scoped to the stop
operation step alone, refuting "the remote SSH session is open only during
the stop/start operation step". -/
theorem c5_session_scope_counterexample :
    c5trace.findIdx isSshOpenEv < c5trace.findIdx isPreTaskEv ∧
    c5trace.findIdx isPreTaskEv < c5trace.findIdx isSshCloseEv ∧
    c5trace.findIdx isSshOpenEv < c5trace.findIdx isWaitEv ∧
    c5trace.findIdx isWaitEv < c5trace.findIdx isSshCloseEv ∧
    c5trace.any isPreTaskEv = true ∧
    c5trace.any isWaitEv = true ∧
    c5trace.any isSshOpenEv = true ∧
    c5trace.any isSshCloseEv = true := by decide

/-- Claim C1 (amended): for every broker processed by the rolling
decommission sequencer, the per-broker phases occur in the order: run every
pre-stop hook against the host first, then wait for cluster stability, then
perform the stop operation, then run every post-stop hook, before advancing
to the next broker.  On an all-healthy cluster with all hooks succeeding the
whole trace is the concatenation of per-broker segments of exactly this
shape (see `brokerSegment`), followed by the final stability wait. -/
theorem c1_phase_order_amended (waitOk : Nat → Bool)
    (brokers : List (Int × String)) (jolokia_port : Int) (jolokia_pfx : String)
    (check_interval check_count unhealthy_time_limit skip : Int)
    (verbose : Bool) (pre post : List Hook)
    (start_command stop_command : String) (ssh_password : Option String)
    (hpre : ∀ t ∈ pre, ∀ h, t.okOn h = true)
    (hpost : ∀ t ∈ post, ∀ h, t.okOn h = true)
    (hw : ∀ k, waitOk k = true) :
    execute_rolling_decommission waitOk brokers jolokia_port jolokia_pfx
      check_interval check_count unhealthy_time_limit skip verbose pre post
      start_command stop_command ssh_password =
    (segJoin (brokers.map (fun b => b.2)) check_count skip pre post
        (pySliceFrom (brokers.map (fun b => b.2)) skip) 0 ++
      [Event.waitStable (brokers.map (fun b => b.2)) check_count],
     Except.ok ()) := by
  have hl := decomLoop_allok waitOk (brokers.map (fun b => b.2)) jolokia_port
    jolokia_pfx check_interval check_count unhealthy_time_limit skip pre post
    stop_command verbose hpre hpost hw
    (pySliceFrom (brokers.map (fun b => b.2)) skip) 0
  simp [execute_rolling_decommission, hl, wait_for_stable_cluster, hw]

/-- Witness for C1 (amended) at a concrete input: one broker with one
always-succeeding pre-stop hook. -/
theorem c1_phase_order_amended_witness :
    (∀ t ∈ ([hookOk "pre1"] : List Hook), ∀ h, t.okOn h = true) ∧
    execute_rolling_decommission wTrue [(1, "A")] 8778 "jolokia/" 10 12 600 0
      false [hookOk "pre1"] [] "service kafka start" "service kafka stop"
      none =
    (segJoin ["A"] 12 0 [hookOk "pre1"] [] (pySliceFrom ["A"] 0) 0 ++
      [Event.waitStable ["A"] 12], Except.ok ()) := by
  have hp : ∀ t ∈ ([hookOk "pre1"] : List Hook), ∀ h, t.okOn h = true := by
    intro t ht h
    simp only [List.mem_singleton] at ht
    subst ht
    rfl
  refine ⟨hp, ?_⟩
  exact c1_phase_order_amended wTrue [(1, "A")] 8778 "jolokia/" 10 12 600 0
    false [hookOk "pre1"] [] "service kafka start" "service kafka stop" none
    hp (fun t ht => absurd ht (List.not_mem_nil t)) (fun k => rfl)

/-- Claim C5 (amended): the remote session of each processed broker spans that
broker's whole cycle — it is opened before the pre-stop hooks and the
stability wait, stays open through the stop operation and the post-stop
hooks, and is closed (on success or failure) before the sequencer moves on:
every trace decomposes into disjoint open-...-close blocks, one per processed
broker, with no session event inside a block or after the last block. -/
theorem c5_session_scope_amended (waitOk : Nat → Bool)
    (brokers : List (Int × String)) (jolokia_port : Int) (jolokia_pfx : String)
    (check_interval check_count unhealthy_time_limit skip : Int)
    (verbose : Bool) (pre post : List Hook)
    (start_command stop_command : String) (ssh_password : Option String) :
    ∃ (chunks : List (String × List Event)) (rest : List Event),
      (execute_rolling_decommission waitOk brokers jolokia_port jolokia_pfx
        check_interval check_count unhealthy_time_limit skip verbose pre post
        start_command stop_command ssh_password).1 =
        (chunks.map chunkEvents).flatten ++ rest ∧
      (∀ c ∈ chunks, c.2.all (fun e => !isSshEv e) = true) ∧
      rest.all (fun e => !isSshEv e) = true := by
  obtain ⟨chunks, hj, hns⟩ := decomLoop_chunks waitOk
    (brokers.map (fun b => b.2)) jolokia_port jolokia_pfx check_interval
    check_count unhealthy_time_limit skip pre post stop_command verbose
    (pySliceFrom (brokers.map (fun b => b.2)) skip) 0
  rcases hp : decomLoop waitOk (brokers.map (fun b => b.2)) jolokia_port
    jolokia_pfx check_interval check_count unhealthy_time_limit skip pre post
    stop_command verbose (pySliceFrom (brokers.map (fun b => b.2)) skip) 0
    with ⟨evs, r⟩
  rw [hp] at hj
  cases r with
  | error e =>
    refine ⟨chunks, [], ?_, hns, by simp⟩
    simp [execute_rolling_decommission, hp]
    exact hj
  | ok u =>
    cases u
    refine ⟨chunks,
      [Event.waitStable (brokers.map (fun b => b.2)) check_count], ?_, hns,
      by simp [isSshEv]⟩
    simp [execute_rolling_decommission, hp, wait_for_stable_cluster]
    exact hj

/-- Claim C6: whenever the per-broker loop completes successfully, the
sequencer performs exactly one additional stability wait over all hosts using
the full configured `check_count` (not the relaxed count 1) before the run is
declared complete; the run's outcome is that final wait's outcome. -/
theorem c6_final_full_wait (waitOk : Nat → Bool)
    (brokers : List (Int × String)) (jolokia_port : Int) (jolokia_pfx : String)
    (check_interval check_count unhealthy_time_limit skip : Int)
    (verbose : Bool) (pre post : List Hook)
    (start_command stop_command : String) (ssh_password : Option String)
    (evs : List Event)
    (hloop : decomLoop waitOk (brokers.map (fun b => b.2)) jolokia_port
      jolokia_pfx check_interval check_count unhealthy_time_limit skip pre
      post stop_command verbose
      (pySliceFrom (brokers.map (fun b => b.2)) skip) 0 =
      (evs, Except.ok ())) :
    execute_rolling_decommission waitOk brokers jolokia_port jolokia_pfx
      check_interval check_count unhealthy_time_limit skip verbose pre post
      start_command stop_command ssh_password =
    (evs ++ [Event.waitStable (brokers.map (fun b => b.2)) check_count],
     if waitOk (pySliceFrom (brokers.map (fun b => b.2)) skip).length then
       Except.ok () else Except.error RunError.waitTimeout) := by
  simp [execute_rolling_decommission, hloop, wait_for_stable_cluster]

/-- Witness for C6 at a concrete input: one broker, no hooks, healthy
cluster. -/
theorem c6_final_full_wait_witness :
    (decomLoop wTrue ["A"] 8778 "jolokia/" 10 12 600 0 [] []
      "service kafka stop" false (pySliceFrom ["A"] 0) 0 =
      ([Event.sshOpen "A", Event.waitStable ["A"] 1, Event.stopping "A" 1 1,
        Event.stopOp "A", Event.sshClose "A"], Except.ok ())) ∧
    execute_rolling_decommission wTrue [(1, "A")] 8778 "jolokia/" 10 12 600 0
      false [] [] "service kafka start" "service kafka stop" none =
    ([Event.sshOpen "A", Event.waitStable ["A"] 1, Event.stopping "A" 1 1,
      Event.stopOp "A", Event.sshClose "A"] ++ [Event.waitStable ["A"] 12],
     if wTrue (pySliceFrom ["A"] 0).length then Except.ok ()
     else Except.error RunError.waitTimeout) := by
  have h : decomLoop wTrue ["A"] 8778 "jolokia/" 10 12 600 0 [] []
      "service kafka stop" false (pySliceFrom ["A"] 0) 0 =
      ([Event.sshOpen "A", Event.waitStable ["A"] 1, Event.stopping "A" 1 1,
        Event.stopOp "A", Event.sshClose "A"], Except.ok ()) := by rfl
  exact ⟨h, c6_final_full_wait wTrue [(1, "A")] 8778 "jolokia/" 10 12 600 0
    false [] [] "service kafka start" "service kafka stop" none _ h⟩

/-- Claim C7 (counterexample): when the post-stop hook fails on broker 3 of 5
(host `C`), the process exits with code 1 and no broker after the third is
touched, but the reported outcome is the generic handler message
`ERROR: pre/post tasks failed, exiting` (main.py line 307), which does not
name the offending broker: the character `C` does not occur in it. -/
theorem c7_outcome_naming_counterexample :
    c7run.2.2 = RunResult.exited 1 ∧
    c7run.1.getLast? = some "ERROR: pre/post tasks failed, exiting" ∧
    ('C' ∈ "ERROR: pre/post tasks failed, exiting".data) = False ∧
    ((c7run.2.1.filterMap eventHost).all
      (fun h => ["A", "B", "C"].contains h)) = true := by
  refine ⟨by decide, by decide, by simp, by decide⟩

/-- Claim C7 (amended): a task failure raised by a post-stop hook on broker 3
of 5 stops the run at once — stop operations happen only for brokers 1-3,
only three stability waits occur (none for brokers 4 and 5, and no final
wait), every host-specific event concerns brokers 1-3 only — and the process
exits with code 1; the failure report is the generic message
`ERROR: pre/post tasks failed, exiting`, which does not name the offending
broker (the broker is last named by the progress line printed at its stop). -/
theorem c7_post_hook_failure_aborts :
    c7run.2.2 = RunResult.exited 1 ∧
    c7run.2.1.filterMap stopOpHost = ["A", "B", "C"] ∧
    c7run.2.1.filterMap waitReqOf = [1, 12, 12] ∧
    ((c7run.2.1.filterMap eventHost).all
      (fun h => ["A", "B", "C"].contains h)) = true ∧
    c7run.1.getLast? = some "ERROR: pre/post tasks failed, exiting" := by
  refine ⟨by decide, by decide, by decide, by decide, by decide⟩

/-- Claim C9: when fewer task arguments than task references are supplied,
`get_task_class` silently drops the excess references — the result is the
same as if only the first `task_args.length` references had been given — and
no error is raised (the result is always `Except.ok`), because
`zip(tasks, task_args)` truncates to the shorter list. -/
theorem c9_task_args_truncation (env : String → Plugin)
    (tasks task_args : List String) (h : task_args.length < tasks.length) :
    get_task_class env tasks task_args =
      get_task_class env (tasks.take task_args.length) task_args ∧
    ∃ pp, get_task_class env tasks task_args = Except.ok pp := by
  constructor
  · unfold get_task_class
    rw [zip_eq_zip_take tasks task_args]
  · exact ⟨_, get_task_class_eq env tasks task_args⟩

/-- Witness for C9 at a concrete input: two task references, one argument. -/
theorem c9_task_args_truncation_witness :
    (["x"] : List String).length < (["a.b.C", "d.e.F"] : List String).length ∧
    (get_task_class envNone ["a.b.C", "d.e.F"] ["x"] =
      get_task_class envNone (["a.b.C", "d.e.F"].take (["x"] : List String).length) ["x"] ∧
    ∃ pp, get_task_class envNone ["a.b.C", "d.e.F"] ["x"] = Except.ok pp) := by
  refine ⟨by decide, ?_⟩
  exact c9_task_args_truncation envNone ["a.b.C", "d.e.F"] ["x"] (by decide)

/-- Claim C10: with an empty (possibly subset-filtered) broker list, flag
validation fails for every skip value — `skip < 0 ∨ 0 ≤ skip` is exhaustive —
so `run` always exits with code 1 and produces no engine event: no broker is
ever contacted. -/
theorem c10_empty_broker_list (opts : Opts) (cluster_name : String)
    (env : String → Plugin) (confirm : Bool) (waitOk : Nat → Bool) :
    (validate_opts opts 0).2 = true ∧
    (run opts cluster_name [] env confirm waitOk).2.1 = [] ∧
    (run opts cluster_name [] env confirm waitOk).2.2 = RunResult.exited 1 := by
  have h1 := lt_or_le opts.skip (0 : Int)
  have hval : (validate_opts opts 0).2 = true := by
    simp [validate_opts, h1]
  have hrun : (run opts cluster_name [] env confirm waitOk).2.1 = [] ∧
      (run opts cluster_name [] env confirm waitOk).2.2 =
        RunResult.exited 1 := by
    rcases hb : opts.broker_ids with _ | ids
    · refine ⟨?_, ?_⟩ <;> simp [run, truthyList, hb, hval]
    · cases hne : ids.isEmpty with
      | true => refine ⟨?_, ?_⟩ <;> simp [run, truthyList, hb, hne, hval]
      | false =>
        have hne2 : ids ≠ [] := by
          cases ids with
          | nil => simp at hne
          | cons a t => simp
        have hvs : (validate_broker_ids_subset ([] : List Int) ids).2 =
            false := by
          rw [validate_broker_ids_subset_snd]
          cases ids with
          | nil => simp at hne
          | cons a t => simp
        refine ⟨?_, ?_⟩ <;> simp [run, truthyList, hb, hne, hne2, hvs]
  exact ⟨hval, hrun.1, hrun.2⟩

/-- Claim C8: (1) flag validation rejects a negative skip, a skip not below
the broker count, a negative check count, a negative unhealthy time limit, or
a negative check interval; (2) whenever flag validation rejects the effective
(possibly subset-filtered) broker list, `run` exits with code 1 and produces
no engine event; (3) a requested broker-id subset containing an id absent
from the cluster makes `run` exit with code 1 with no engine event; and
(4) a check count of exactly zero passes validation, with only the warning
printed. -/
theorem c8_validation_gate (opts : Opts) (cluster_name : String)
    (brokers0 : List (Int × String)) (env : String → Plugin) (confirm : Bool)
    (waitOk : Nat → Bool) :
    (∀ n : Nat, (opts.skip < 0 ∨ (n : Int) ≤ opts.skip ∨
        opts.check_count < 0 ∨ opts.unhealthy_time_limit < 0 ∨
        opts.check_interval < 0) →
      (validate_opts opts n).2 = true) ∧
    ((validate_opts opts (effective_brokers opts brokers0).length).2 = true →
      (run opts cluster_name brokers0 env confirm waitOk).2.1 = [] ∧
      (run opts cluster_name brokers0 env confirm waitOk).2.2 =
        RunResult.exited 1) ∧
    ((∃ ids, opts.broker_ids = some ids ∧ ids ≠ [] ∧
        ∃ i ∈ ids, i ∉ brokers0.map (fun b => b.1)) →
      (run opts cluster_name brokers0 env confirm waitOk).2.1 = [] ∧
      (run opts cluster_name brokers0 env confirm waitOk).2.2 =
        RunResult.exited 1) ∧
    (∀ n : Nat, opts.check_count = 0 → 0 ≤ opts.skip → opts.skip < (n : Int) →
      0 ≤ opts.unhealthy_time_limit → 0 ≤ opts.check_interval →
      validate_opts opts n = (["Warning: no check will be performed"], false)) := by
  refine ⟨?_, ?_, ?_, ?_⟩
  · intro n h
    by_cases h1 : opts.skip < 0 ∨ (n : Int) ≤ opts.skip
    · simp [validate_opts, h1]
    · by_cases h2 : opts.check_count < 0
      · simp [validate_opts, h1, h2]
      · by_cases h3 : opts.unhealthy_time_limit < 0
        · simp [validate_opts, h1, h2, h3]
        · by_cases h4 : opts.check_interval < 0
          · simp [validate_opts, h1, h2, h3, h4]
          · exfalso
            omega
  · intro hv
    rcases hb : opts.broker_ids with _ | ids
    · have he : effective_brokers opts brokers0 = brokers0 := by
        simp [effective_brokers, truthyList, hb]
      rw [he] at hv
      refine ⟨?_, ?_⟩ <;> simp [run, truthyList, hb, hv]
    · cases hne : ids.isEmpty with
      | true =>
        have he : effective_brokers opts brokers0 = brokers0 := by
          simp [effective_brokers, truthyList, hb, hne]
        rw [he] at hv
        refine ⟨?_, ?_⟩ <;> simp [run, truthyList, hb, hne, hv]
      | false =>
        cases hvs : (validate_broker_ids_subset
            (brokers0.map (fun b => b.1)) ids).2 with
        | false =>
          refine ⟨?_, ?_⟩ <;> simp [run, truthyList, hb, hne, hvs]
        | true =>
          have he : effective_brokers opts brokers0 =
              filter_broker_list brokers0 ids := by
            simp [effective_brokers, truthyList, hb, hne]
          rw [he] at hv
          refine ⟨?_, ?_⟩ <;> simp [run, truthyList, hb, hne, hvs, hv]
  · rintro ⟨ids, hb, hne, i, hin, hmem⟩
    have hne2 : ids.isEmpty = false := by
      cases ids with
      | nil => exact absurd rfl hne
      | cons a t => rfl
    have hvs : (validate_broker_ids_subset
        (brokers0.map (fun b => b.1)) ids).2 = false := by
      rw [validate_broker_ids_subset_snd]
      simp [List.all_eq_false]
      exact ⟨i, hin, fun x hx => hmem (List.mem_map_of_mem (fun b => b.1) hx)⟩
    refine ⟨?_, ?_⟩ <;> simp [run, truthyList, hb, hne2, hvs]
  · intro n hcc hs1 hs2 hu hc
    have h1 : ¬(opts.skip < 0 ∨ (n : Int) ≤ opts.skip) := by omega
    have h2 : ¬opts.check_count < 0 := by omega
    have h3 : ¬opts.unhealthy_time_limit < 0 := by omega
    have h4 : ¬opts.check_interval < 0 := by omega
    simp [validate_opts, h1, h2, h3, h4, hcc]

/-- Witness for C8 at concrete inputs: `--skip 7` on a three-broker cluster
is rejected and makes `run` exit 1; subset `{0, 5}` against cluster ids
`{0, 1, 2}` makes `run` exit 1; `--check-count 0` passes validation with only
the warning. -/
theorem c8_validation_gate_witness :
    (validate_opts optsSkipBad 3).2 = true ∧
    (run optsSkipBad "cluster" brokersABC envNone true wTrue).2.2 =
      RunResult.exited 1 ∧
    (run optsSubsetBad "cluster" brokersABC envNone true wTrue).2.2 =
      RunResult.exited 1 ∧
    validate_opts optsWarn 3 = (["Warning: no check will be performed"], false) := by
  refine ⟨?_, ?_, ?_, ?_⟩
  · exact (c8_validation_gate optsSkipBad "cluster" brokersABC envNone true
      wTrue).1 3 (by decide)
  · exact ((c8_validation_gate optsSkipBad "cluster" brokersABC envNone true
      wTrue).2.1 (by decide)).2
  · exact ((c8_validation_gate optsSubsetBad "cluster" brokersABC envNone true
      wTrue).2.2.1 ⟨[0, 5], rfl, by decide, 5, by decide, by decide⟩).2
  · exact (c8_validation_gate optsWarn "cluster" brokersABC envNone true
      wTrue).2.2.2 3 rfl (by decide) (by decide) (by decide) (by decide)
